import Mathlib

/-!
Verification development for the porkbun-dns-migrator repository.

The definitions below are a shallow embedding of `src/dns_import.py` and
`src/dns_export.py`.  Record field values coming from JSON are modelled by
`Val` (string or integer); Python `dict` objects are modelled by structures
with `Option` fields or by association lists; the vendor HTTP API is modelled
as an explicit call trace plus (for whole-run properties) a simple store that
returns exactly the records previously created under the queried
(root domain, type, subdomain) key.
-/

namespace Porkbun

/-- A scalar JSON value as it appears in DNS record fields. -/
inductive Val where
  | vStr : String → Val
  | vInt : Int → Val
deriving DecidableEq, Repr

/-- Python truthiness of an optional field value: `None`, `""` and `0` are falsy. -/
def pyTruthy : Option Val → Bool
  | none => false
  | some (Val.vStr s) => !(s == "")
  | some (Val.vInt n) => !(n == 0)

/-- Python `str()` of a value. -/
def pyStr : Val → String
  | Val.vStr s => s
  | Val.vInt n => toString n

/-- A record as returned by the provider (`retrieve`/`retrieveByNameType` response). -/
structure ProviderRecord where
  id : Nat
  name : String
  rtype : String
  content : Val
  ttl : Val
  prio : Option Val
deriving DecidableEq, Repr

/-- One record object of the import document (`record['content']` etc. may be absent). -/
structure ImportRecord where
  name : Option String
  content : Option Val
  ttl : Option Val
  prio : Option Val
deriving DecidableEq, Repr

/-- The priority-bearing record types, as listed in `dns_import.py`. -/
def prioTypes : List String := ["MX", "SRV", "NAPTR"]

/-- Helper for `pySplitDot`, structurally recursive over the characters. -/
def splitDotAux : List Char → List Char → List String
  | [], acc => [String.mk acc.reverse]
  | c :: cs, acc =>
    if c = '.' then String.mk acc.reverse :: splitDotAux cs []
    else splitDotAux cs (c :: acc)

/-- Python `s.split('.')`: the dot-separated pieces of the string (an empty
string yields `[""]`, like Python). -/
def pySplitDot (s : String) : List String := splitDotAux s.data []

/-- Python `s.endswith('.')`. -/
def pyEndsWithDot (s : String) : Bool := s.data.getLast? == some '.'

/-- `'.'.join(domain.split('.')[-2:])` — root-domain extraction used by every
API-call site in `dns_import.py`. -/
def rootDomain (domain : String) : String :=
  let parts := pySplitDot domain
  String.intercalate "." (parts.drop (parts.length - 2))

/-- The `name` field placed in create/edit payloads: the domain's first label
when the domain differs from its root domain, `"@"` otherwise
(`dns_import.py`, `create_record`/`update_record`). -/
def payloadName (domain : String) : String :=
  if domain ≠ rootDomain domain then (pySplitDot domain).headD "" else "@"

/-- The candidate-filtering loop of `get_existing_record`: first candidate whose
`content` equals the input content (input content must be truthy), with a
string-compared `prio` check added only for priority-bearing types when the
input prio is truthy.  A candidate examined for `prio` that lacks the field
raises `KeyError`, which the enclosing handler turns into `None`. -/
def findMatch (rtype : String) (content prio : Option Val) :
    List ProviderRecord → Option ProviderRecord
  | [] => none
  | r :: rest =>
    if pyTruthy content && (some r.content == content) then
      if prioTypes.contains rtype && pyTruthy prio then
        match prio, r.prio with
        | some p, some rp =>
          if pyStr rp == pyStr p then some r else findMatch rtype content prio rest
        | some _, none => none
        | none, _ => none
      else some r
    else findMatch rtype content prio rest

/-- Result of `get_existing_record` given the provider response to the
`retrieveByNameType` call (`none` response = non-SUCCESS status or transport
error, which the function reports as no match). -/
def get_existing_record_result (rtype : String) (content prio : Option Val)
    (resp : Option (List ProviderRecord)) : Option ProviderRecord :=
  match resp with
  | none => none
  | some records => if records.isEmpty then none else findMatch rtype content prio records

/-- The `record_data` dictionary assembled in `process_record`. -/
structure RecordData where
  name : String
  rtype : String
  content : Val
  ttl : Val
  prio : Option Val
deriving DecidableEq, Repr

/-- The record portion of a create/edit request body (credentials omitted). -/
structure Payload where
  ptype : String
  content : Val
  ttl : Val
  pname : String
  prio : Option Val
deriving DecidableEq, Repr

/-- Payload built by `update_record`: type/content/ttl copied, name derived from
the domain, `prio` included exactly when present on the record data. -/
def update_payload (domain : String) (rd : RecordData) : Payload :=
  { ptype := rd.rtype, content := rd.content, ttl := rd.ttl,
    pname := payloadName domain, prio := rd.prio }

/-- Payload built by `create_record`: `prio` is added only for MX/SRV/NAPTR and
its absence there raises `KeyError` (modelled as `none`). -/
def create_payload (domain : String) (rd : RecordData) : Option Payload :=
  if prioTypes.contains rd.rtype then
    match rd.prio with
    | some p =>
        some { ptype := rd.rtype, content := rd.content, ttl := rd.ttl,
               pname := payloadName domain, prio := some p }
    | none => none
  else
    some { ptype := rd.rtype, content := rd.content, ttl := rd.ttl,
           pname := payloadName domain, prio := none }

/-- One vendor API call, with the root domain it addresses. -/
inductive ApiCall where
  | retrieve : String → ApiCall
  | retrieveByNameType : String → String → String → ApiCall
  | create : String → Payload → ApiCall
  | edit : String → Nat → Payload → ApiCall
deriving DecidableEq, Repr

/-- The root domain a call addresses. -/
def ApiCall.rootOf : ApiCall → String
  | ApiCall.retrieve r => r
  | ApiCall.retrieveByNameType r _ _ => r
  | ApiCall.create r _ => r
  | ApiCall.edit r _ _ => r

/-- Whether a call writes provider state (create or edit). -/
def ApiCall.isWrite : ApiCall → Bool
  | ApiCall.create _ _ => true
  | ApiCall.edit _ _ _ => true
  | _ => false

/-- Terminal state of one record's reconciliation. -/
inductive Outcome where
  | skipped
  | updated
  | created
  | errored
deriving DecidableEq, Repr

/-- `process_record`: reconciliation of one input record.  Returns the terminal
outcome and the ordered list of vendor API calls issued for this record.
`resp` is the provider's answer to the lookup call. -/
def process_record (domain rtype name : String) (record : ImportRecord)
    (force : Bool) (resp : Option (List ProviderRecord)) : Outcome × List ApiCall :=
  match record.content, record.ttl with
  | some content, some ttl =>
    let prio := record.prio
    if prioTypes.contains rtype && prio.isNone then (Outcome.errored, [])
    else
      let root := rootDomain domain
      let sub := if name ≠ "@" then name else ""
      let look := ApiCall.retrieveByNameType root rtype sub
      let existing := get_existing_record_result rtype (some content) prio resp
      let rd : RecordData :=
        { name := name, rtype := rtype, content := content, ttl := ttl, prio := prio }
      match existing with
      | some er =>
          if force then
            (Outcome.updated, [look, ApiCall.edit root er.id (update_payload domain rd)])
          else (Outcome.skipped, [look])
      | none =>
          match create_payload domain rd with
          | some pl => (Outcome.created, [look, ApiCall.create root pl])
          | none => (Outcome.errored, [look])
  | _, _ => (Outcome.errored, [])

/-! ### Provider-state model for whole-run properties

The vendor API is external to the repository.  For run-level claims it is
modelled as a simple coherent store: `create` appends a record under the
(root domain, type, subdomain) key taken from the payload it was sent
(with the vendor convention that name `"@"` denotes the apex, stored as the
empty subdomain), and `retrieveByNameType` returns exactly the records stored
under the queried key. -/

/-- A record held by the modelled provider. -/
structure StoredRecord where
  id : Nat
  root : String
  sub : String
  rtype : String
  content : Val
  ttl : Val
  prio : Option Val
deriving DecidableEq, Repr

/-- View of a stored record as it appears in a provider response. -/
def StoredRecord.toProvider (r : StoredRecord) : ProviderRecord :=
  { id := r.id, name := r.sub, rtype := r.rtype, content := r.content,
    ttl := r.ttl, prio := r.prio }

/-- Apex records are stored under the empty subdomain. -/
def normName (pname : String) : String := if pname == "@" then "" else pname

/-- Modelled `retrieveByNameType`: all records stored under the queried key. -/
def providerLookup (st : List StoredRecord) (root rtype sub : String) :
    List ProviderRecord :=
  (st.filter (fun r => r.root == root && r.rtype == rtype && r.sub == sub)).map
    StoredRecord.toProvider

/-- Effect of one call on the modelled provider store (`fresh` supplies ids). -/
def applyCall (st : List StoredRecord) (fresh : Nat) :
    ApiCall → List StoredRecord × Nat
  | ApiCall.create root pl =>
      (st ++ [{ id := fresh, root := root, sub := normName pl.pname,
                rtype := pl.ptype, content := pl.content, ttl := pl.ttl,
                prio := pl.prio }], fresh + 1)
  | ApiCall.edit root rid pl =>
      (st.map (fun r =>
        if r.id == rid && r.root == root then
          { r with sub := normName pl.pname, rtype := pl.ptype,
                   content := pl.content, ttl := pl.ttl, prio := pl.prio }
        else r), fresh)
  | _ => (st, fresh)

/-- Effect of a call sequence on the modelled provider store. -/
def applyCalls (st : List StoredRecord) (fresh : Nat) :
    List ApiCall → List StoredRecord × Nat
  | [] => (st, fresh)
  | c :: cs =>
    let p := applyCall st fresh c
    applyCalls p.1 p.2 cs

/-- Accumulated state of an import run: provider store, next fresh id,
per-record outcomes and the full call trace. -/
structure RunState where
  store : List StoredRecord
  fresh : Nat
  outcomes : List Outcome
  calls : List ApiCall
deriving DecidableEq, Repr

/-- The name `import_dns_records` passes to `process_record`: the record's
`name` field defaulting to the domain, with a trailing dot appended when
absent. -/
def nameFor (domain : String) (r : ImportRecord) : String :=
  let n := r.name.getD domain
  if pyEndsWithDot n then n else n ++ "."

/-- One record step of `import_dns_records`: look up against the current store,
run `process_record`, apply the resulting calls to the store. -/
def stepRecord (force : Bool) (domain rtype : String) (rs : RunState)
    (record : ImportRecord) : RunState :=
  let name := nameFor domain record
  let root := rootDomain domain
  let sub := if name ≠ "@" then name else ""
  let resp := providerLookup rs.store root rtype sub
  let pr := process_record domain rtype name record force (some resp)
  let p := applyCalls rs.store rs.fresh pr.2
  { store := p.1, fresh := p.2, outcomes := rs.outcomes ++ [pr.1],
    calls := rs.calls ++ pr.2 }

/-- Record-type map of one domain of the import document. -/
abbrev RecMap := List (String × List ImportRecord)

/-- One `{domain: records}` object of the import document. -/
abbrev DomainData := List (String × RecMap)

/-- The parsed import document: a list of single-key domain objects. -/
abbrev Document := List DomainData

/-- `import_dns_records`: sequential run over the whole document. -/
def runImport (doc : Document) (force : Bool) (st0 : List StoredRecord)
    (fresh0 : Nat) : RunState :=
  doc.foldl (fun rs dd =>
    dd.foldl (fun rs dr =>
      dr.2.foldl (fun rs tr =>
        tr.2.foldl (fun rs record => stepRecord force dr.1 tr.1 rs record) rs) rs) rs)
    { store := st0, fresh := fresh0, outcomes := [], calls := [] }

/-! ### Export side (`dns_export.py`) -/

/-- A raw resolver answer datum, with the attributes the code reads per type. -/
structure Rdata where
  text : String
  exchange : String
  preference : Nat
  target : String
  priority : Nat
  weight : Nat
  port : Nat
  replacement : String
  order : Nat
deriving DecidableEq, Repr

/-- Outcome of one resolver query (`resolver.resolve(domain, type)`). -/
inductive ResolveResult where
  | nxdomain
  | noAnswer
  | failure
  | answers : List Rdata → Nat → ResolveResult

/-- A decoded value placed in the `records` dict by `get_records`. -/
inductive RecordValue where
  | raw : String → RecordValue
  | mx : String → Nat → Nat → RecordValue
  | srv : String → Nat → Nat → Nat → Nat → RecordValue
  | naptr : String → Nat → Nat → Nat → RecordValue
  | plain : String → Nat → RecordValue
deriving DecidableEq, Repr

/-- Per-datum decoding in `get_records`. -/
def decodeRdata (rtype : String) (raw_output : Bool) (ttl : Nat) (rd : Rdata) :
    RecordValue :=
  if raw_output then RecordValue.raw rd.text
  else if rtype == "MX" then RecordValue.mx rd.exchange rd.preference ttl
  else if rtype == "SRV" then
    RecordValue.srv rd.target rd.priority rd.weight rd.port ttl
  else if rtype == "NAPTR" then
    RecordValue.naptr rd.replacement rd.order rd.preference ttl
  else RecordValue.plain rd.text ttl

/-- The query loop of `get_records`, before CNAME post-processing. -/
def collectRecords (resolve : String → String → ResolveResult) (domain : String)
    (record_types : List String) (raw_output : Bool) :
    List (String × List RecordValue) :=
  record_types.foldl (fun acc rtype =>
    match resolve domain rtype with
    | ResolveResult.answers rdatas ttl =>
        acc ++ [(rtype, rdatas.map (decodeRdata rtype raw_output ttl))]
    | _ => acc) []

/-- `get_records`: resolver queries plus the CNAME post-processing that drops A
and AAAA entries unless `keep_a_aaaa` is set. -/
def get_records (resolve : String → String → ResolveResult) (domain : String)
    (record_types : List String) (raw_output keep_a_aaaa : Bool) :
    List (String × List RecordValue) :=
  let records := collectRecords resolve domain record_types raw_output
  if (records.lookup "CNAME").isSome && !keep_a_aaaa then
    records.filter (fun p => !(p.1 == "A") && !(p.1 == "AAAA"))
  else records

/-- One formatted export entry; `Option` fields model key presence in the
emitted dictionary. -/
structure ExportEntry where
  content : String
  ttl : String
  prio : Option String
  order : Option String
  preference : Option String
deriving DecidableEq, Repr

/-- Python `s.strip(c)` for the double-quote character used on TXT content. -/
def stripQuotes (s : String) : String :=
  String.mk (((s.toList.dropWhile (· == '"')).reverse.dropWhile (· == '"')).reverse)

/-- Per-record body of `format_records`: the type-specific field template.
An arity mismatch between the type and the decoded tuple raises in Python and
is modelled as `none`. -/
def format_entry (rtype : String) (rv : RecordValue) : Option ExportEntry :=
  if rtype == "MX" then
    match rv with
    | RecordValue.mx c p t =>
        some { content := c, ttl := toString t, prio := some (toString p),
               order := none, preference := none }
    | _ => none
  else if rtype == "SRV" then
    match rv with
    | RecordValue.srv target p w port t =>
        some { content := toString w ++ " " ++ toString port ++ " " ++ target,
               ttl := toString t, prio := some (toString p),
               order := none, preference := none }
    | _ => none
  else if rtype == "NAPTR" then
    match rv with
    | RecordValue.naptr repl ord pref t =>
        some { content := repl, ttl := toString t, prio := none,
               order := some (toString ord), preference := some (toString pref) }
    | _ => none
  else if rtype == "TXT" then
    match rv with
    | RecordValue.plain c t =>
        some { content := stripQuotes c, ttl := toString t, prio := none,
               order := none, preference := none }
    | _ => none
  else
    match rv with
    | RecordValue.plain c t =>
        some { content := c, ttl := toString t, prio := none,
               order := none, preference := none }
    | _ => none

/-- Field-template check: exactly the fields the spec's codec table attaches to
each record type ({content, ttl, prio} for MX/SRV, {content, ttl, order,
preference} for NAPTR, {content, ttl} otherwise). -/
def entryTemplateOk (rtype : String) : Option ExportEntry → Bool
  | none => false
  | some e =>
    if rtype == "MX" || rtype == "SRV" then
      e.prio.isSome && e.order.isNone && e.preference.isNone
    else if rtype == "NAPTR" then
      e.prio.isNone && e.order.isSome && e.preference.isSome
    else
      e.prio.isNone && e.order.isNone && e.preference.isNone

/-! ### Vendor-side export (`export_dns_records_json` in `dns_import.py`) -/

/-- One entry of the vendor export: only `content` and `ttl` keys are ever
emitted (nulls are filtered, both fields here are non-null values). -/
structure VendorEntry where
  content : Val
  ttl : Val
deriving DecidableEq, Repr

/-- Per-record body of `export_dns_records_json`: content and ttl are copied,
except that for MX the priority is folded into the content string; accessing a
missing `prio` on an MX record raises (modelled as `none`). -/
def vendor_export_entry (r : ProviderRecord) : Option VendorEntry :=
  if r.rtype == "MX" then
    match r.prio with
    | some p =>
        some { content := Val.vStr (pyStr p ++ " " ++ pyStr r.content), ttl := r.ttl }
    | none => none
  else some { content := r.content, ttl := r.ttl }

/-- An import record read back from a canonical export entry (the strings of
the JSON document become string values). -/
def entryToRecordData (name rtype : String) (e : ExportEntry) : RecordData :=
  { name := name, rtype := rtype, content := Val.vStr e.content,
    ttl := Val.vStr e.ttl, prio := e.prio.map Val.vStr }

/-- The record as the modelled provider stores it after a create call. -/
def storeOfPayload (idn : Nat) (pl : Payload) : ProviderRecord :=
  { id := idn, name := normName pl.pname, rtype := pl.ptype,
    content := pl.content, ttl := pl.ttl, prio := pl.prio }

/-- Encode a canonical record to the vendor and decode the stored result back
through `export_dns_records_json`. -/
def vendorRoundTrip (domain : String) (rd : RecordData) : Option VendorEntry :=
  (create_payload domain rd).bind
    (fun pl => vendor_export_entry (storeOfPayload 0 pl))

/-! ### Import document schema (`read_input` / `validate_json_schema`) -/

/-- A JSON document. -/
inductive Json where
  | jstr : String → Json
  | jnum : Int → Json
  | jbool : Bool → Json
  | jnull : Json
  | jarr : List Json → Json
  | jobj : List (String × Json) → Json

/-- A record object carries at minimum `content` and `ttl` keys. -/
def isRecordObj : Json → Bool
  | Json.jobj kvs => (kvs.map Prod.fst).contains "content" &&
      (kvs.map Prod.fst).contains "ttl"
  | _ => false

/-- A domain's value maps record-type names to sequences of record objects. -/
def isTypeMap : Json → Bool
  | Json.jobj kvs => kvs.all (fun kv =>
      match kv.2 with
      | Json.jarr rs => rs.all isRecordObj
      | _ => false)
  | _ => false

/-- Modelled from the spec: `validate_json_schema` checks the document against
`schema.json`, a file of this repository that is not under `src/`.  Following
the spec's Schema Validator contract, the document must be an ordered sequence
of single-key mappings (one per domain), each value a mapping from record-type
name to an ordered sequence of record objects, each containing at minimum
`content` and `ttl`. -/
def validate_json_schema : Json → Bool
  | Json.jarr ds => ds.all (fun d =>
      match d with
      | Json.jobj kvs => kvs.length == 1 && kvs.all (fun kv => isTypeMap kv.2)
      | _ => false)
  | _ => false

/-- Python dict lookup on parsed JSON objects (duplicate keys: last wins). -/
def jlookup (kvs : List (String × Json)) (k : String) : Option Json :=
  kvs.reverse.lookup k

/-- A scalar JSON value as a record field value (`null` behaves as absent). -/
def toVal : Json → Option Val
  | Json.jstr s => some (Val.vStr s)
  | Json.jnum n => some (Val.vInt n)
  | _ => none

/-- Read one record object of the document. -/
def toImportRecord : Json → ImportRecord
  | Json.jobj kvs =>
      { name := match jlookup kvs "name" with
                | some (Json.jstr s) => some s
                | _ => none,
        content := (jlookup kvs "content").bind toVal,
        ttl := (jlookup kvs "ttl").bind toVal,
        prio := (jlookup kvs "prio").bind toVal }
  | _ => { name := none, content := none, ttl := none, prio := none }

/-- Read one record list of the document. -/
def toRecList : Json → List ImportRecord
  | Json.jarr rs => rs.map toImportRecord
  | _ => []

/-- Read one record-type map of the document. -/
def toRecMap : Json → RecMap
  | Json.jobj kvs => kvs.map (fun kv => (kv.1, toRecList kv.2))
  | _ => []

/-- Read one domain object of the document. -/
def toDomainData : Json → DomainData
  | Json.jobj kvs => kvs.map (fun kv => (kv.1, toRecMap kv.2))
  | _ => []

/-- Read the whole document. -/
def toDocument : Json → Document
  | Json.jarr ds => ds.map toDomainData
  | _ => []

/-- `read_input`: parse and validate; a schema failure raises `ValueError`
before any import work starts (modelled as `none`). -/
def read_input (doc : Json) : Option Document :=
  if validate_json_schema doc then some (toDocument doc) else none

/-- The import entry point: `read_input` followed by `import_dns_records`;
a validation failure aborts with no run at all. -/
def mainImport (doc : Json) (force : Bool) (st0 : List StoredRecord)
    (fresh0 : Nat) : Option RunState :=
  (read_input doc).map (fun d => runImport d force st0 fresh0)

/-- All provider calls made by an invocation of the import tool. -/
def mainCalls (doc : Json) (force : Bool) (st0 : List StoredRecord)
    (fresh0 : Nat) : List ApiCall :=
  match mainImport doc force st0 fresh0 with
  | some rs => rs.calls
  | none => []

/-- `get_existing_records`: the export/list path's full-zone lookup; issues one
retrieve call addressed to the root domain and passes the response records
through (`none` models a non-SUCCESS status, a missing records key or a
response decode error, all of which the function reports as `None`). -/
def get_existing_records (domain : String)
    (resp : Option (List ProviderRecord)) :
    Option (List ProviderRecord) × List ApiCall :=
  (resp, [ApiCall.retrieve (rootDomain domain)])

/-- The spec's description of root-domain extraction, stated independently:
the last two dot-separated labels of the domain. -/
def lastTwoLabelsSpec (domain : String) : String :=
  String.intercalate "." ((pySplitDot domain).reverse.take 2).reverse

/-! ### Helper lemmas -/

/-- A key excluded by the filter predicate cannot be looked up afterwards. -/
theorem lookup_filter_of_excluded {α : Type} (f : String → Bool) (k : String)
    (hk : f k = false) :
    ∀ l : List (String × α), (l.filter (fun p => f p.1)).lookup k = none := by
  intro l
  induction l with
  | nil => rfl
  | cons a t ih =>
    obtain ⟨x, y⟩ := a
    by_cases h : f x
    · have hne : (k == x) = false := by
        rw [beq_eq_false_iff_ne]
        intro he
        rw [he, h] at hk
        exact Bool.noConfusion hk
      simp [List.filter_cons, h, List.lookup, hne, ih]
    · simp only [Bool.not_eq_true] at h
      simp [List.filter_cons, h, ih]

/-- Dropping all but the last two elements is taking two from the reverse. -/
theorem drop_length_sub_two {α : Type} (l : List α) :
    l.drop (l.length - 2) = (l.reverse.take 2).reverse := by
  have h := List.rtake_eq_reverse_take_reverse (l := l) (n := 2)
  simpa [List.rtake] using h

/-- The code's root-domain extraction agrees with the spec's description
(last two dot-separated labels). -/
theorem rootDomain_eq_lastTwoLabels (d : String) :
    rootDomain d = lastTwoLabelsSpec d := by
  simp only [rootDomain, lastTwoLabelsSpec]
  rw [drop_length_sub_two]

/-! ### Claim theorems -/

/-- C2 (code_bug evidence): running the same one-record import twice without
force against the modelled provider does NOT skip on the second run — the
lookup queries subdomain `"example.com."` (the input name with a trailing dot
appended) while the create call stored the record under the apex name `"@"`,
so the second run finds no match and issues a second create call. -/
theorem C2_second_run_recreates_records :
    let doc : Document := [[("example.com",
      [("A", [{ name := none, content := some (Val.vStr "192.0.2.1"),
                ttl := some (Val.vStr "300"), prio := none }])])]]
    let st1 : List StoredRecord :=
      [{ id := 0, root := "example.com", sub := "", rtype := "A",
         content := Val.vStr "192.0.2.1", ttl := Val.vStr "300", prio := none }]
    runImport doc false [] 0 =
      { store := st1, fresh := 1, outcomes := [Outcome.created],
        calls := [ApiCall.retrieveByNameType "example.com" "A" "example.com.",
          ApiCall.create "example.com"
            { ptype := "A", content := Val.vStr "192.0.2.1", ttl := Val.vStr "300",
              pname := "@", prio := none }] } ∧
    (runImport doc false st1 1).outcomes = [Outcome.created] ∧
    (runImport doc false st1 1).outcomes ≠ [Outcome.skipped] ∧
    ((runImport doc false st1 1).calls.filter ApiCall.isWrite).length = 1 := by
  exact ⟨by decide, by decide, by decide, by decide⟩

/-- C6: a document that fails schema validation is rejected whole, before any
record is looked up, created or updated: the import never runs and the call
trace of the invocation is empty. -/
theorem C6_schema_failure_rejects_whole_import (doc : Json) (force : Bool)
    (st0 : List StoredRecord) (fresh0 : Nat)
    (h : validate_json_schema doc = false) :
    read_input doc = none ∧ mainImport doc force st0 fresh0 = none ∧
    mainCalls doc force st0 fresh0 = [] := by
  have h1 : read_input doc = none := by simp [read_input, h]
  have h2 : mainImport doc force st0 fresh0 = none := by simp [mainImport, h1]
  exact ⟨h1, h2, by simp [mainCalls, h2]⟩

/-- C6 witness: a document whose domain value is a list instead of a mapping
fails validation and produces zero provider calls. -/
theorem C6_schema_failure_witness :
    validate_json_schema (Json.jarr [Json.jobj [("example.com", Json.jarr [])]]) = false ∧
    mainCalls (Json.jarr [Json.jobj [("example.com", Json.jarr [])]]) false [] 0 = [] := by
  exact ⟨rfl, (C6_schema_failure_rejects_whole_import
    (Json.jarr [Json.jobj [("example.com", Json.jarr [])]]) false [] 0 rfl).2.2⟩

/-- C1: for a record with all required fields present, reconciliation issues at
most one write call: lookup miss ⇒ exactly one create; lookup hit without
force ⇒ skipped with zero writes; lookup hit with force ⇒ exactly one edit
addressed to the matched record's id, with content, ttl and prio resent. -/
theorem C1_write_discipline
    (domain rtype name : String) (record : ImportRecord) (force : Bool)
    (resp : Option (List ProviderRecord)) (c t : Val)
    (hc : record.content = some c) (ht : record.ttl = some t)
    (hp : rtype ∈ prioTypes → record.prio.isSome = true) :
    (get_existing_record_result rtype (some c) record.prio resp = none →
      ((process_record domain rtype name record force resp).2.filter ApiCall.isWrite) =
        [ApiCall.create (rootDomain domain)
          { ptype := rtype, content := c, ttl := t, pname := payloadName domain,
            prio := if rtype ∈ prioTypes then record.prio else none }]) ∧
    (∀ er, get_existing_record_result rtype (some c) record.prio resp = some er →
      (force = false →
        (process_record domain rtype name record force resp).1 = Outcome.skipped ∧
        ((process_record domain rtype name record force resp).2.filter ApiCall.isWrite) = []) ∧
      (force = true →
        ((process_record domain rtype name record force resp).2.filter ApiCall.isWrite) =
          [ApiCall.edit (rootDomain domain) er.id
            { ptype := rtype, content := c, ttl := t, pname := payloadName domain,
              prio := record.prio }])) := by
  have hguard : ¬(rtype ∈ prioTypes ∧ record.prio = none) := by
    rintro ⟨h1, h2⟩
    have h3 := hp h1
    rw [h2] at h3
    simp at h3
  constructor
  · intro hnone
    by_cases h1 : rtype ∈ prioTypes
    · obtain ⟨p, hpr⟩ := Option.isSome_iff_exists.mp (hp h1)
      rw [hpr] at hnone
      simp [process_record, hc, ht, hguard, hnone, create_payload, h1, hpr,
        update_payload, ApiCall.isWrite, List.filter]
    · simp [process_record, hc, ht, hguard, hnone, create_payload, h1,
        update_payload, ApiCall.isWrite, List.filter]
  · intro er hsome
    constructor
    · intro hforce
      subst hforce
      simp [process_record, hc, ht, hguard, hsome, ApiCall.isWrite, List.filter]
    · intro hforce
      subst hforce
      simp [process_record, hc, ht, hguard, hsome, update_payload,
        ApiCall.isWrite, List.filter]

/-- C1 witness: with force set and an identical existing record with id 7, the
record step issues exactly one write and it is an edit addressed to id 7. -/
theorem C1_write_discipline_witness :
    ((process_record "example.com" "A" "example.com."
        { name := none, content := some (Val.vStr "1.2.3.4"),
          ttl := some (Val.vStr "300"), prio := none } true
        (some [{ id := 7, name := "", rtype := "A", content := Val.vStr "1.2.3.4",
                 ttl := Val.vStr "600", prio := none }])).2.filter ApiCall.isWrite) =
      [ApiCall.edit "example.com" 7
        { ptype := "A", content := Val.vStr "1.2.3.4", ttl := Val.vStr "300",
          pname := "@", prio := none }] := by
  have h := C1_write_discipline "example.com" "A" "example.com."
    { name := none, content := some (Val.vStr "1.2.3.4"),
      ttl := some (Val.vStr "300"), prio := none } true
    (some [{ id := 7, name := "", rtype := "A", content := Val.vStr "1.2.3.4",
             ttl := Val.vStr "600", prio := none }])
    (Val.vStr "1.2.3.4") (Val.vStr "300") rfl rfl (by decide)
  have h2 := (h.2 { id := 7, name := "", rtype := "A", content := Val.vStr "1.2.3.4",
                    ttl := Val.vStr "600", prio := none } (by decide)).2 rfl
  have hroot : rootDomain "example.com" = "example.com" := by decide
  have hname : payloadName "example.com" = "@" := by decide
  rw [h2, hroot, hname]

/-- C5: an MX/SRV/NAPTR record without a `prio` field terminates in an error
with zero provider calls (no lookup, create or edit), and the record step
leaves the provider store, fresh-id counter and call trace unchanged, so the
rest of the batch proceeds as if the record were absent. -/
theorem C5_missing_prio_short_circuits
    (domain rtype name : String) (record : ImportRecord) (force : Bool)
    (resp : Option (List ProviderRecord))
    (hrt : rtype ∈ prioTypes) (hnone : record.prio = none) :
    process_record domain rtype name record force resp = (Outcome.errored, []) ∧
    (∀ rs : RunState, stepRecord force domain rtype rs record =
      { rs with outcomes := rs.outcomes ++ [Outcome.errored] }) := by
  have hgen : ∀ (nm : String) (rsp : Option (List ProviderRecord)),
      process_record domain rtype nm record force rsp = (Outcome.errored, []) := by
    intro nm rsp
    cases hc : record.content
    · simp [process_record, hc]
    · cases htl : record.ttl
      · simp [process_record, hc, htl]
      · simp [process_record, hc, htl, hrt, hnone]
  refine ⟨hgen name resp, fun rs => ?_⟩
  simp [stepRecord, hgen, applyCalls]

/-- C5 witness: an MX record lacking prio is errored with zero calls and the
run state is unchanged apart from the recorded outcome. -/
theorem C5_missing_prio_witness :
    process_record "example.com" "MX" "example.com."
      { name := none, content := some (Val.vStr "mail.example.com"),
        ttl := some (Val.vStr "600"), prio := none } false (some []) =
      (Outcome.errored, []) ∧
    stepRecord false "example.com" "MX"
      { store := [], fresh := 0, outcomes := [], calls := [] }
      { name := none, content := some (Val.vStr "mail.example.com"),
        ttl := some (Val.vStr "600"), prio := none } =
      { store := [], fresh := 0, outcomes := [Outcome.errored], calls := [] } := by
  have h := C5_missing_prio_short_circuits "example.com" "MX" "example.com."
    { name := none, content := some (Val.vStr "mail.example.com"),
      ttl := some (Val.vStr "600"), prio := none } false (some []) (by decide) rfl
  exact ⟨h.1, h.2 _⟩

/-- C7: when the queried record set contains a CNAME entry and the keep-both
flag is unset, the returned set has no A and no AAAA entries; with the flag
set nothing is dropped — the result is exactly what the queries produced. -/
theorem C7_cname_suppresses_a_aaaa
    (resolve : String → String → ResolveResult) (domain : String)
    (rts : List String) (raw : Bool) :
    (((get_records resolve domain rts raw false).lookup "CNAME").isSome = true →
      (get_records resolve domain rts raw false).lookup "A" = none ∧
      (get_records resolve domain rts raw false).lookup "AAAA" = none) ∧
    get_records resolve domain rts raw true = collectRecords resolve domain rts raw := by
  constructor
  · intro hcname
    by_cases h : ((collectRecords resolve domain rts raw).lookup "CNAME").isSome = true
    · have hres : get_records resolve domain rts raw false =
          (collectRecords resolve domain rts raw).filter
            (fun p => !(p.1 == "A") && !(p.1 == "AAAA")) := by
        simp [get_records, h]
      rw [hres]
      exact ⟨lookup_filter_of_excluded (fun k => !(k == "A") && !(k == "AAAA"))
          "A" (by decide) _,
        lookup_filter_of_excluded (fun k => !(k == "A") && !(k == "AAAA"))
          "AAAA" (by decide) _⟩
    · have hres : get_records resolve domain rts raw false =
          collectRecords resolve domain rts raw := by
        simp only [Bool.not_eq_true] at h
        simp [get_records, h]
      rw [hres] at hcname
      exact absurd hcname h
  · simp [get_records]

/-- C7 witness: with a CNAME present and keep-both unset, the A entry that the
resolver returned is absent from the result. -/
theorem C7_cname_suppresses_witness :
    (get_records
      (fun _ rt => if rt == "CNAME" || rt == "A" then
        ResolveResult.answers
          [{ text := "target.example.net.", exchange := "", preference := 0,
             target := "", priority := 0, weight := 0, port := 0,
             replacement := "", order := 0 }] 60
        else ResolveResult.noAnswer)
      "example.com" ["A", "AAAA", "CNAME"] false false).lookup "A" = none := by
  have h := C7_cname_suppresses_a_aaaa
    (fun _ rt => if rt == "CNAME" || rt == "A" then
        ResolveResult.answers
          [{ text := "target.example.net.", exchange := "", preference := 0,
             target := "", priority := 0, weight := 0, port := 0,
             replacement := "", order := 0 }] 60
        else ResolveResult.noAnswer)
    "example.com" ["A", "AAAA", "CNAME"] false
  exact (h.1 (by decide)).1

/-- C8 (amended): the create payload carries exactly the vendor field set
{type, content, ttl, name} plus prio for MX/SRV/NAPTR, where name is derived
from the input domain alone — `"@"` when the domain equals its root domain,
the domain's first label otherwise (the record's own name plays no role); the
spec's concrete A-record example produces exactly one create call with payload
{type A, content 192.0.2.1, ttl 300, name @}. -/
theorem C8_create_payload_shape (domain : String) (rd : RecordData)
    (hp : rd.rtype ∈ prioTypes → rd.prio.isSome = true) :
    create_payload domain rd =
      some { ptype := rd.rtype, content := rd.content, ttl := rd.ttl,
             pname := if domain = rootDomain domain then "@"
                      else (pySplitDot domain).headD "",
             prio := if rd.rtype ∈ prioTypes then rd.prio else none } ∧
    process_record "example.com" "A" "example.com."
      { name := none, content := some (Val.vStr "192.0.2.1"),
        ttl := some (Val.vStr "300"), prio := none } false (some []) =
      (Outcome.created,
        [ApiCall.retrieveByNameType "example.com" "A" "example.com.",
         ApiCall.create "example.com"
           { ptype := "A", content := Val.vStr "192.0.2.1", ttl := Val.vStr "300",
             pname := "@", prio := none }]) := by
  constructor
  · by_cases h1 : rd.rtype ∈ prioTypes
    · obtain ⟨p, hpr⟩ := Option.isSome_iff_exists.mp (hp h1)
      simp [create_payload, h1, hpr, payloadName, ite_not]
    · simp [create_payload, h1, payloadName, ite_not]
  · decide

/-- C8 counterexample: under the apex domain, a record whose own (effective)
name "www." differs from the domain still gets payload name "@" — the name is
not derived from the record's effective name as the claim states. -/
theorem C8_record_name_ignored_counterexample :
    process_record "example.com" "A" "www."
      { name := some "www", content := some (Val.vStr "192.0.2.10"),
        ttl := some (Val.vStr "300"), prio := none } false (some []) =
      (Outcome.created,
        [ApiCall.retrieveByNameType "example.com" "A" "www.",
         ApiCall.create "example.com"
           { ptype := "A", content := Val.vStr "192.0.2.10", ttl := Val.vStr "300",
             pname := "@", prio := none }]) ∧
    ("www." ≠ "example.com") ∧ ("@" ≠ "www") ∧ ("@" ≠ "www.") := by
  exact ⟨by decide, by decide, by decide, by decide⟩

/-- C8 witness: a priority-bearing record under a subdomain gets the payload
with exactly type, content, ttl, the first label as name, and its prio. -/
theorem C8_create_payload_witness :
    create_payload "mail.example.com"
      { name := "mail.example.com.", rtype := "MX",
        content := Val.vStr "mx1.example.com", ttl := Val.vStr "600",
        prio := some (Val.vStr "10") } =
      some { ptype := "MX", content := Val.vStr "mx1.example.com",
             ttl := Val.vStr "600", pname := "mail",
             prio := some (Val.vStr "10") } := by
  have h := (C8_create_payload_shape "mail.example.com"
    { name := "mail.example.com.", rtype := "MX",
      content := Val.vStr "mx1.example.com", ttl := Val.vStr "600",
      prio := some (Val.vStr "10") } (by decide)).1
  rw [h]
  decide

/-- C10: every provider call addresses the root domain (equal to the spec's
last-two-labels description) — the retrieveByNameType/create/edit calls of a
record's reconciliation and the full-zone retrieve call of
`get_existing_records` alike — and create/edit payload names are derived
solely from the input domain — the record's own name (or any name passed in)
never changes which writes are issued or their payloads. -/
theorem C10_root_addressing (domain rtype name name2 : String)
    (record : ImportRecord) (force : Bool)
    (resp resp2 : Option (List ProviderRecord)) :
    ((process_record domain rtype name record force resp).2.all
      (fun call => call.rootOf == rootDomain domain)) = true ∧
    ((get_existing_records domain resp2).2.all
      (fun call => call.rootOf == rootDomain domain)) = true ∧
    rootDomain domain = lastTwoLabelsSpec domain ∧
    (∀ rd : RecordData, (update_payload domain rd).pname = payloadName domain ∧
      ((create_payload domain rd).getD (update_payload domain rd)).pname =
        payloadName domain) ∧
    ((process_record domain rtype name record force resp).2.filter ApiCall.isWrite =
     (process_record domain rtype name2 record force resp).2.filter ApiCall.isWrite) := by
  refine ⟨?_, by simp [get_existing_records, ApiCall.rootOf],
    rootDomain_eq_lastTwoLabels domain, fun rd => ⟨rfl, ?_⟩, ?_⟩
  · cases hc : record.content with
    | none => simp [process_record, hc]
    | some c =>
      cases ht : record.ttl with
      | none => simp [process_record, hc, ht]
      | some t =>
        by_cases hg : rtype ∈ prioTypes ∧ record.prio = none
        · simp [process_record, hc, ht, hg]
        · cases hex : get_existing_record_result rtype (some c) record.prio resp with
          | some er =>
            cases force <;>
              simp [process_record, hc, ht, hg, hex, ApiCall.rootOf]
          | none =>
            cases hcp : create_payload domain
                { name := name, rtype := rtype, content := c, ttl := t,
                  prio := record.prio } with
            | some pl =>
              simp [process_record, hc, ht, hg, hex, hcp, ApiCall.rootOf]
            | none =>
              simp [process_record, hc, ht, hg, hex, hcp, ApiCall.rootOf]
  · by_cases h1 : rd.rtype ∈ prioTypes
    · cases hpr : rd.prio with
      | none => simp [create_payload, h1, hpr, update_payload]
      | some p => simp [create_payload, h1, hpr]
    · simp [create_payload, h1]
  · cases hc : record.content with
    | none => simp [process_record, hc]
    | some c =>
      cases ht : record.ttl with
      | none => simp [process_record, hc, ht]
      | some t =>
        by_cases hg : rtype ∈ prioTypes ∧ record.prio = none
        · simp [process_record, hc, ht, hg]
        · cases hex : get_existing_record_result rtype (some c) record.prio resp with
          | some er =>
            cases force <;>
              simp [process_record, hc, ht, hg, hex, ApiCall.isWrite, update_payload]
          | none =>
            have hsame : create_payload domain
                { name := name2, rtype := rtype, content := c, ttl := t,
                  prio := record.prio } =
                create_payload domain
                { name := name, rtype := rtype, content := c, ttl := t,
                  prio := record.prio } := rfl
            cases hcp : create_payload domain
                { name := name, rtype := rtype, content := c, ttl := t,
                  prio := record.prio } with
            | some pl =>
              simp [process_record, hc, ht, hg, hex, hcp, hsame.trans hcp,
                ApiCall.isWrite]
            | none =>
              simp [process_record, hc, ht, hg, hex, hcp, hsame.trans hcp,
                ApiCall.isWrite]

/-- C3 (amended): encoding a decoded record preserves content, ttl and prio for
every record type except NAPTR (whose decoded form carries order/preference
but no prio, so encoding fails its required-prio check); decoding an encoded
record through the vendor export preserves content and ttl for every type
except MX (whose content is reserialized as "prio target"), and the vendor
export entry carries no prio field at all, so prio is dropped for
priority-bearing types in that direction. -/
theorem C3_roundtrip (domain ename rtype : String) (ttl : Nat) (rd : Rdata)
    (hn : rtype ≠ "NAPTR") (rdc : RecordData) (hm : rdc.rtype ≠ "MX") :
    (∃ e pl, format_entry rtype (decodeRdata rtype false ttl rd) = some e ∧
      create_payload domain (entryToRecordData ename rtype e) = some pl ∧
      pl.content = Val.vStr e.content ∧ pl.ttl = Val.vStr e.ttl ∧
      pl.prio = e.prio.map Val.vStr) ∧
    (∀ ve, vendorRoundTrip domain rdc = some ve →
      ve.content = rdc.content ∧ ve.ttl = rdc.ttl) := by
  constructor
  · by_cases h1 : rtype = "MX"
    · subst h1
      exact ⟨_, _, rfl, rfl, rfl, rfl, rfl⟩
    · by_cases h2 : rtype = "SRV"
      · subst h2
        exact ⟨_, _, rfl, rfl, rfl, rfl, rfl⟩
      · by_cases h4 : rtype = "TXT"
        · subst h4
          exact ⟨_, _, rfl, rfl, rfl, rfl, rfl⟩
        · have e1 : (rtype == "MX") = false := beq_eq_false_iff_ne.mpr h1
          have e2 : (rtype == "SRV") = false := beq_eq_false_iff_ne.mpr h2
          have e3 : (rtype == "NAPTR") = false := beq_eq_false_iff_ne.mpr hn
          have e4 : (rtype == "TXT") = false := beq_eq_false_iff_ne.mpr h4
          have hmem : rtype ∉ prioTypes := by
            simp [prioTypes]
            exact ⟨h1, h2, hn⟩
          refine ⟨{ content := rd.text, ttl := toString ttl, prio := none,
                    order := none, preference := none },
                  { ptype := rtype, content := Val.vStr rd.text,
                    ttl := Val.vStr (toString ttl), pname := payloadName domain,
                    prio := none }, ?_, ?_, rfl, rfl, rfl⟩
          · simp [decodeRdata, format_entry, e1, e2, e3, e4]
          · simp [create_payload, hmem, entryToRecordData]
  · intro ve hve
    have hshape : ∀ pl, create_payload domain rdc = some pl →
        pl.ptype = rdc.rtype ∧ pl.content = rdc.content ∧ pl.ttl = rdc.ttl := by
      intro pl h
      by_cases h1 : rdc.rtype ∈ prioTypes
      · cases hpr : rdc.prio with
        | none => simp [create_payload, h1, hpr] at h
        | some p =>
          simp [create_payload, h1, hpr] at h
          subst h
          exact ⟨rfl, rfl, rfl⟩
      · simp [create_payload, h1] at h
        subst h
        exact ⟨rfl, rfl, rfl⟩
    cases hcp : create_payload domain rdc with
    | none => simp [vendorRoundTrip, hcp] at hve
    | some pl =>
      obtain ⟨hty, hco, htt⟩ := hshape pl hcp
      have hne : ((storeOfPayload 0 pl).rtype == "MX") = false := by
        rw [beq_eq_false_iff_ne]
        simp only [storeOfPayload]
        rw [hty]
        exact hm
      simp only [vendorRoundTrip, hcp, Option.some_bind, Option.bind_some,
        vendor_export_entry, hne, Bool.false_eq_true, if_false,
        Option.some.injEq] at hve
      rw [← hve]
      exact ⟨hco, htt⟩

/-- C3 counterexample: (i) an MX record does not survive encode-then-decode —
the vendor export folds the priority into the content string, so the decoded
content "10 mail.example.com" differs from the original "mail.example.com";
(ii) a decoded NAPTR record cannot be encoded at all (its template has
order/preference but no prio, and encoding requires prio); (iii) an encoded
SRV record decodes to an entry with only content and ttl — its prio is
dropped. -/
theorem C3_roundtrip_counterexample :
    vendorRoundTrip "example.com"
      { name := "example.com.", rtype := "MX", content := Val.vStr "mail.example.com",
        ttl := Val.vStr "600", prio := some (Val.vStr "10") } =
      some { content := Val.vStr "10 mail.example.com", ttl := Val.vStr "600" } ∧
    Val.vStr "10 mail.example.com" ≠ Val.vStr "mail.example.com" ∧
    (format_entry "NAPTR" (decodeRdata "NAPTR" false 300
      { text := "", exchange := "", preference := 20, target := "", priority := 0,
        weight := 0, port := 0, replacement := "repl.example.com.", order := 50 })).bind
      (fun e => create_payload "example.com"
        (entryToRecordData "example.com." "NAPTR" e)) = none ∧
    vendorRoundTrip "example.com"
      { name := "example.com.", rtype := "SRV",
        content := Val.vStr "5 443 target.example.com",
        ttl := Val.vStr "600", prio := some (Val.vStr "1") } =
      some { content := Val.vStr "5 443 target.example.com",
             ttl := Val.vStr "600" } := by
  exact ⟨by decide, by decide, by decide, by decide⟩

/-- C3 witness: the encode-after-decode direction at a concrete MX record, and
the decode-after-encode direction at a concrete A record. -/
theorem C3_roundtrip_witness :
    (∃ e pl, format_entry "MX" (decodeRdata "MX" false 600
        { text := "", exchange := "mail.example.com.", preference := 10,
          target := "", priority := 0, weight := 0, port := 0,
          replacement := "", order := 0 }) = some e ∧
      create_payload "example.com" (entryToRecordData "example.com." "MX" e) = some pl ∧
      pl.content = Val.vStr e.content ∧ pl.ttl = Val.vStr e.ttl ∧
      pl.prio = e.prio.map Val.vStr) ∧
    Val.vStr "1.2.3.4" = Val.vStr "1.2.3.4" ∧ Val.vStr "300" = Val.vStr "300" := by
  have h := C3_roundtrip "example.com" "example.com." "MX" 600
    { text := "", exchange := "mail.example.com.", preference := 10,
      target := "", priority := 0, weight := 0, port := 0,
      replacement := "", order := 0 } (by decide)
    { name := "example.com.", rtype := "A", content := Val.vStr "1.2.3.4",
      ttl := Val.vStr "300", prio := none } (by decide)
  exact ⟨h.1, h.2 { content := Val.vStr "1.2.3.4", ttl := Val.vStr "300" } (by decide)⟩

/-- C9: every decoded resolver record formats to exactly its type's field set:
{content, ttl, prio} for MX and SRV, {content, ttl, order, preference} for
NAPTR, {content, ttl} for every other type — no omitted field, no extras. -/
theorem C9_export_field_template (rtype : String) (ttl : Nat) (rd : Rdata) :
    entryTemplateOk rtype (format_entry rtype (decodeRdata rtype false ttl rd)) = true := by
  unfold decodeRdata format_entry entryTemplateOk
  split_ifs <;> simp_all

end Porkbun
